import Mathlib

/-!
Verification development for the roulette-sentinel-core repository.

The Python sources are shallowly embedded: monetary amounts become exact
rationals (`ℚ`), Python `round(x, 2)` becomes `round2` below (round half up at
two decimal places), fallible code returns `Option` (with `none` standing for a
raised `ValueError`), and the mutable `RiskMonitor` / `RouletteSimulator`
objects become explicit state records with pure transition functions.
-/

/-- Rounding to two decimal places, modelling Python `round(x, 2)` on the
monetary values of the repository (exact-rational semantics, half up). -/
def round2 (x : ℚ) : ℚ := (round (x * 100) : ℚ) / 100

/-- Rounding to four decimal places, modelling Python `round(x, 4)` used for
the derived risk-index and buffer-factor in the simulator round records. -/
def round4 (x : ℚ) : ℚ := (round (x * 10000) : ℚ) / 10000

/-- A rational that is a whole number of cents (two-decimal value). All bank
and reserve values produced by the code are of this shape. -/
def cent_scaled (x : ℚ) : Prop := ∃ k : ℤ, x = (k : ℚ) / 100

/-- The memoized Fibonacci-like sequence of `adaptive_shield_engine.py`
(`get_fib_for_streak` body on non-negative arguments): terms 0, 1 and 2 are 1
and from term 3 on each term is the sum of the previous two. The process-wide
cache of the Python code is pure memoization and does not change the value. -/
def fib_seq : ℕ → ℕ
  | 0 => 1
  | 1 => 1
  | 2 => 1
  | (n + 3) => fib_seq (n + 2) + fib_seq (n + 1)

/-- `get_fib_for_streak` from `adaptive_shield_engine.py`: raises (here:
`none`) on a negative streak, otherwise returns the sequence term. -/
def get_fib_for_streak (streak : ℤ) : Option ℕ :=
  if streak < 0 then none
  else some (fib_seq streak.toNat)

/-- `calculate_bet` from `adaptive_shield_engine.py`. Guard order follows the
source: non-positive base, negative streak and out-of-range zero count each
yield a stake of `0.0`; then the fibonacci term is computed (its error, were it
reachable, would propagate as `none`), the buffer factor and risk index are
checked, and the stake is rounded to two decimals. -/
def calculate_bet (base_bet : ℚ) (current_streak : ℤ) (z_count_last_50 : ℤ) :
    Option ℚ :=
  if base_bet ≤ 0 then some 0
  else if current_streak < 0 then some 0
  else if ¬(0 ≤ z_count_last_50 ∧ z_count_last_50 ≤ 50) then some 0
  else
    match get_fib_for_streak current_streak with
    | none => none
    | some fib_k =>
      let buffer_factor : ℚ := 1 - (z_count_last_50 : ℚ) / 50
      if buffer_factor ≤ 0 then some 0
      else
        let risk_index : ℚ := 1 + (current_streak : ℚ) / 15
        if risk_index ≤ 0 then some 0
        else some (round2 (base_bet * (fib_k : ℚ) * buffer_factor / risk_index))

/-- A numeric Python argument as the dynamically typed code receives it: an
int, or a non-int number (a float; the exact rational value is carried). The
isinstance check on the streak in `get_fib_for_streak` distinguishes the two
by type, not by value. -/
inductive PyNumber where
  | int (k : ℤ)
  | float (q : ℚ)

/-- The numeric value of a Python argument, as used by the comparisons of
`calculate_bet` (Python compares ints and floats by value). -/
def PyNumber.val : PyNumber → ℚ
  | .int k => (k : ℚ)
  | .float q => q

/-- `get_fib_for_streak` on a dynamically typed argument: the isinstance
check raises (here: `none`) for every non-int value whatever its magnitude,
and for ints exactly when negative; otherwise the sequence term is
returned. -/
def get_fib_for_streak_py : PyNumber → Option ℕ
  | .int k => if k < 0 then none else some (fib_seq k.toNat)
  | .float _ => none

/-- `calculate_bet` on a dynamically typed streak argument, mirroring the
source guard for guard: the three early guards compare the streak by value,
so a non-int streak with non-negative value reaches `get_fib_for_streak`,
whose `ValueError` propagates (`none`). -/
def calculate_bet_py (base_bet : ℚ) (current_streak : PyNumber)
    (z_count_last_50 : ℤ) : Option ℚ :=
  if base_bet ≤ 0 then some 0
  else if current_streak.val < 0 then some 0
  else if ¬(0 ≤ z_count_last_50 ∧ z_count_last_50 ≤ 50) then some 0
  else
    match get_fib_for_streak_py current_streak with
    | none => none
    | some fib_k =>
      let buffer_factor : ℚ := 1 - (z_count_last_50 : ℚ) / 50
      if buffer_factor ≤ 0 then some 0
      else
        let risk_index : ℚ := 1 + current_streak.val / 15
        if risk_index ≤ 0 then some 0
        else some (round2 (base_bet * (fib_k : ℚ) * buffer_factor / risk_index))

/-! ## live_analytics.py: roulette number classification -/

/-- The red numbers of a European roulette wheel, from `live_analytics.py`. -/
def RED_NUMBERS : List ℤ := [1, 3, 5, 7, 9, 12, 14, 16, 18, 19, 21, 23, 25, 27, 30, 32, 34, 36]

/-- The black numbers, from `live_analytics.py`. -/
def BLACK_NUMBERS : List ℤ := [2, 4, 6, 8, 10, 11, 13, 15, 17, 20, 22, 24, 26, 28, 29, 31, 33, 35]

/-- All valid roulette numbers 0..36, from `live_analytics.py`. -/
def ALL_NUMBERS : List ℤ :=
  [0, 1, 2, 3, 4, 5, 6, 7, 8, 9, 10, 11, 12, 13, 14, 15, 16, 17, 18, 19, 20, 21,
   22, 23, 24, 25, 26, 27, 28, 29, 30, 31, 32, 33, 34, 35, 36]

/-- The even numbers 1..36, from `live_analytics.py`. -/
def EVEN_NUMBERS : List ℤ :=
  ((List.range 37).map (fun i => (i : ℤ))).filter (fun i => 1 ≤ i ∧ i % 2 = 0)

/-- The low numbers 1..18, from `live_analytics.py`. -/
def LOW_NUMBERS : List ℤ := ((List.range 19).map (fun i => (i : ℤ))).filter (fun i => 1 ≤ i)

/-- First dozen 1..12 containing the number, in dictionary order as in the
Python `DOZENS` loop of `get_number_properties`. -/
def dozen_of (n : ℤ) : Option ℤ :=
  if 1 ≤ n ∧ n ≤ 12 then some 1
  else if 13 ≤ n ∧ n ≤ 24 then some 2
  else if 25 ≤ n ∧ n ≤ 36 then some 3
  else none

/-- The three table columns of `live_analytics.py` (`COLUMNS`), searched in
dictionary order. -/
def column_of (n : ℤ) : Option ℤ :=
  if n ∈ ([1, 4, 7, 10, 13, 16, 19, 22, 25, 28, 31, 34] : List ℤ) then some 1
  else if n ∈ ([2, 5, 8, 11, 14, 17, 20, 23, 26, 29, 32, 35] : List ℤ) then some 2
  else if n ∈ ([3, 6, 9, 12, 15, 18, 21, 24, 27, 30, 33, 36] : List ℤ) then some 3
  else none

/-- The record returned by `get_number_properties` in `live_analytics.py`. -/
structure NumberProps where
  number : ℤ
  is_zero : Bool
  color : Option String
  parity : Option String
  range : Option String
  dozen : Option ℤ
  column : Option ℤ
  deriving DecidableEq

/-- `get_number_properties` from `live_analytics.py`: `none` models the
`ValueError` raised for a number outside 0..36; otherwise the classification
record is built, with the non-zero-only fields left `None` for zero. -/
def get_number_properties (number : ℤ) : Option NumberProps :=
  if number ∈ ALL_NUMBERS then
    some
      { number := number
        is_zero := decide (number = 0)
        color :=
          if number ≠ 0 then some (if number ∈ RED_NUMBERS then "red" else "black") else none
        parity :=
          if number ≠ 0 then some (if number ∈ EVEN_NUMBERS then "even" else "odd") else none
        range :=
          if number ≠ 0 then some (if number ∈ LOW_NUMBERS then "low" else "high") else none
        dozen := if number ≠ 0 then dozen_of number else none
        column := if number ≠ 0 then column_of number else none }
  else none

/-! ## risk_monitor.py: the RiskMonitor state and its transition -/

/-- The mutable state of the `RiskMonitor` class in `risk_monitor.py`; the
`stop_conditions_met` dictionary becomes the three boolean flag fields. -/
structure RiskMonitor where
  initial_bank : ℚ
  current_bank : ℚ
  base_bet : ℚ
  current_streak : ℤ
  z_count_last_50 : ℤ
  zero_buffer : ℚ
  spin_history_for_zero_count : List ℤ
  loss_streak_limit : Bool
  zero_count_limit : Bool
  drawdown_limit : Bool

/-- `RiskMonitor.reset_state` (also the constructor body): all state variables
set to their initial values. -/
def reset_state (new_initial_bank : ℚ) (new_base_bet : ℚ) : RiskMonitor where
  initial_bank := new_initial_bank
  current_bank := new_initial_bank
  base_bet := new_base_bet
  current_streak := 0
  z_count_last_50 := 0
  zero_buffer := 0
  spin_history_for_zero_count := []
  loss_streak_limit := false
  zero_count_limit := false
  drawdown_limit := false

/-- `RiskMonitor.update_z_count`: recompute the cached zero count as the sum
of the sliding window. -/
def update_z_count (m : RiskMonitor) : RiskMonitor :=
  { m with z_count_last_50 := m.spin_history_for_zero_count.sum }

/-- `RiskMonitor.check_stop_conditions`: recompute the three stop flags from
the current state (limits 15 losses, 4 zeros, 20 percent drawdown). -/
def check_stop_conditions (m : RiskMonitor) : RiskMonitor :=
  { m with
    loss_streak_limit := decide (m.current_streak ≥ 15)
    zero_count_limit := decide (m.z_count_last_50 ≥ 4)
    drawdown_limit :=
      if m.initial_bank > 0 then
        decide ((m.initial_bank - m.current_bank) / m.initial_bank ≥ 20 / 100)
      else if m.current_bank < 0 then true
      else false }

/-- `RiskMonitor.is_stop_suggested`: true when any stop flag is set. -/
def is_stop_suggested (m : RiskMonitor) : Bool :=
  m.loss_streak_limit || m.zero_count_limit || m.drawdown_limit

/-- The body of `RiskMonitor.update_state` before its final call to
`check_stop_conditions`: optional bank override, window push and eviction,
zero-count recomputation, win/loss bank and streak update with zero-buffer
contribution or compensation, and the final 2-decimal bank rounding. -/
def update_state_pre (m : RiskMonitor) (bet_amount : ℚ) (win_amount : ℚ)
    (is_zero_result : Bool) (current_bank_override : Option ℚ) : RiskMonitor :=
  let m := match current_bank_override with
    | some b => { m with current_bank := b }
    | none => m
  let hist := m.spin_history_for_zero_count ++ [if is_zero_result then (1 : ℤ) else 0]
  let hist := if hist.length > 50 then hist.drop 1 else hist
  let m := update_z_count { m with spin_history_for_zero_count := hist }
  let m :=
    if win_amount > 0 then
      { m with
        current_bank := m.current_bank + win_amount
        current_streak := 0
        zero_buffer := round2 (m.zero_buffer + win_amount * (5 / 100)) }
    else
      let m := { m with
        current_bank := m.current_bank - bet_amount
        current_streak := m.current_streak + 1 }
      if is_zero_result then
        let actual_compensation := round2 (min (bet_amount * (50 / 100)) m.zero_buffer)
        { m with
          current_bank := m.current_bank + actual_compensation
          zero_buffer := round2 (m.zero_buffer - actual_compensation) }
      else m
  { m with current_bank := round2 m.current_bank }

/-- `RiskMonitor.update_state` from `risk_monitor.py`: the state update
followed by the recomputation of the stop flags. -/
def update_state (m : RiskMonitor) (bet_amount : ℚ) (win_amount : ℚ)
    (is_zero_result : Bool) (current_bank_override : Option ℚ) : RiskMonitor :=
  check_stop_conditions (update_state_pre m bet_amount win_amount is_zero_result
    current_bank_override)

/-! ## simulator.py: the RouletteSimulator driver -/

/-- One entry of `bet_history` in `simulator.py` (the per-round record
appended by `run_simulation`). -/
structure BetRecord where
  spin : ℕ
  result : ℤ
  bet_amount : ℚ
  win_amount_from_bet : ℚ
  bank_before_bet : ℚ
  bank_after_spin : ℚ
  streak_before_bet : ℤ
  z_count_before_bet : ℤ
  risk_index : ℚ
  buffer_factor : ℚ

/-- The state of the `RouletteSimulator` class (summary statistics that no
claim concerns are omitted). -/
structure RouletteSimulator where
  initial_bank : ℚ
  base_bet : ℚ
  risk_monitor : RiskMonitor
  current_bank : ℚ
  spin_history : List ℤ
  bet_history : List BetRecord

/-- `RouletteSimulator.__init__` with a fresh `RiskMonitor` built from the
same configuration, as in the `__main__` block of `simulator.py`. -/
def mkSimulator (initial_bank : ℚ) (base_bet : ℚ) : RouletteSimulator where
  initial_bank := initial_bank
  base_bet := base_bet
  risk_monitor := reset_state initial_bank base_bet
  current_bank := initial_bank
  spin_history := []
  bet_history := []

/-- Total wrapper around `get_number_properties` for an outcome already known
to lie in 0..36; the default is never reached (see `getPropsFin_eq`). -/
def getPropsFin (n : Fin 37) : NumberProps :=
  (get_number_properties (n : ℤ)).getD
    { number := n, is_zero := decide ((n : ℤ) = 0), color := none, parity := none,
      range := none, dozen := none, column := none }

/-- `RouletteSimulator._place_bet_and_determine_outcome`: the fixed bet rule
is a 1:1 wager on red; returns net win and whether the outcome is zero. -/
def place_bet_and_determine_outcome (bet_amount : ℚ) (spin_result : Fin 37) : ℚ × Bool :=
  if bet_amount ≤ 0 then (0, false)
  else
    let props := getPropsFin spin_result
    let is_zero_result := props.is_zero
    if !is_zero_result && decide (props.color = some "red") then (bet_amount, is_zero_result)
    else (0, is_zero_result)

/-- One iteration of the `run_simulation` loop, after the pre-bet autostop
check: stake computation (with the 2-decimal rounding and the bank clamp),
either the zero-stake free round or a real wager, the risk transition and the
round record. The boolean is false when the loop breaks (post-bet autostop or
bankruptcy). -/
def stepRound (sim : RouletteSimulator) (spin_count : ℕ) (x : Fin 37) :
    RouletteSimulator × Bool :=
  let bet_amount := (calculate_bet sim.base_bet sim.risk_monitor.current_streak
    sim.risk_monitor.z_count_last_50).getD 0
  let bet_amount := round2 bet_amount
  let bet_amount := min bet_amount sim.current_bank
  if bet_amount ≤ 0 then
    let props := getPropsFin x
    let m := update_state sim.risk_monitor 0 0 props.is_zero none
    let entry : BetRecord :=
      { spin := spin_count
        result := (x : ℤ)
        bet_amount := 0
        win_amount_from_bet := 0
        bank_before_bet := sim.current_bank
        bank_after_spin := sim.current_bank
        streak_before_bet := m.current_streak
        z_count_before_bet := m.z_count_last_50
        risk_index := 1 + (m.current_streak : ℚ) / 15
        buffer_factor := 1 - (m.z_count_last_50 : ℚ) / 50 }
    ({ sim with
        risk_monitor := m
        spin_history := sim.spin_history ++ [(x : ℤ)]
        bet_history := sim.bet_history ++ [entry] }, true)
  else
    let bank_before_bet := sim.current_bank
    let outcome := place_bet_and_determine_outcome bet_amount x
    let win_amount := outcome.1
    let is_zero_result := outcome.2
    let m := update_state sim.risk_monitor bet_amount win_amount is_zero_result
      (some bank_before_bet)
    let streak_rec := if win_amount = 0 ∧ is_zero_result = false then m.current_streak - 1
      else m.current_streak
    let z_rec := if is_zero_result then m.z_count_last_50 - 1 else m.z_count_last_50
    let streak_rec := max 0 streak_rec
    let z_rec := max 0 z_rec
    let entry : BetRecord :=
      { spin := spin_count
        result := (x : ℤ)
        bet_amount := bet_amount
        win_amount_from_bet := win_amount
        bank_before_bet := bank_before_bet
        bank_after_spin := m.current_bank
        streak_before_bet := streak_rec
        z_count_before_bet := z_rec
        risk_index := round4 (1 + (streak_rec : ℚ) / 15)
        buffer_factor := round4 (1 - (z_rec : ℚ) / 50) }
    let sim := { sim with
      risk_monitor := m
      current_bank := m.current_bank
      spin_history := sim.spin_history ++ [(x : ℤ)]
      bet_history := sim.bet_history ++ [entry] }
    (sim, !is_stop_suggested m && decide (m.current_bank > 0))

/-- `RouletteSimulator.run_simulation`: the driver loop. The injected outcome
list plays the role of the random draws (one per round, the list length being
the round budget); each iteration starts with the pre-bet autostop check and
the loop breaks when an iteration signals a stop. -/
def run_simulation (sim : RouletteSimulator) (spin_count : ℕ) :
    List (Fin 37) → RouletteSimulator
  | [] => sim
  | x :: xs =>
    if is_stop_suggested sim.risk_monitor then sim
    else
      let p := stepRound sim spin_count x
      if p.2 then run_simulation p.1 (spin_count + 1) xs else p.1

/-! ## Transition sequences for the RiskState invariant -/

/-- The arguments of one `update_state` call, for quantifying over arbitrary
transition sequences. -/
structure SpinUpdate where
  bet : ℚ
  win : ℚ
  zero : Bool
  override : Option ℚ

/-- A sequence of `update_state` transitions applied in order. -/
def applyUpdates (m : RiskMonitor) (ts : List SpinUpdate) : RiskMonitor :=
  ts.foldl (fun m t => update_state m t.bet t.win t.zero t.override) m

/-- A sliding window whose entries are all zero-flags (0 or 1). -/
def good_window (l : List ℤ) : Prop := ∀ f ∈ l, f = 0 ∨ f = 1

/-- The inductive invariant of the `RiskMonitor` state after `n` transitions
from a reset state. -/
def monitor_inv (m : RiskMonitor) (n : ℕ) : Prop :=
  m.spin_history_for_zero_count.length = min 50 n ∧
  m.z_count_last_50 = m.spin_history_for_zero_count.sum ∧
  good_window m.spin_history_for_zero_count ∧
  0 ≤ m.current_streak ∧
  0 ≤ m.zero_buffer ∧
  cent_scaled m.zero_buffer

/-- The three autostop conditions of the claim, read off the monitor fields:
loss streak at least 15, zero count at least 4, or drawdown at least 20
percent of a positive initial bank. -/
def stop_conditions_hold (m : RiskMonitor) : Prop :=
  m.current_streak ≥ 15 ∨ m.z_count_last_50 ≥ 4 ∨
    (0 < m.initial_bank ∧ (m.initial_bank - m.current_bank) / m.initial_bank ≥ 20 / 100)

/-! ## Arithmetic facts about 2-decimal rounding -/

lemma round2_nonneg (x : ℚ) (h : 0 ≤ x) : 0 ≤ round2 x := by
  unfold round2
  have hr : (0 : ℤ) ≤ round (x * 100) := by
    rw [round_eq]
    refine Int.le_floor.2 ?_
    push_cast
    nlinarith
  positivity

lemma round2_le_round2 {x y : ℚ} (h : x ≤ y) : round2 x ≤ round2 y := by
  unfold round2
  have hr : round (x * 100) ≤ round (y * 100) := by
    rw [round_eq, round_eq]
    exact Int.floor_le_floor (by linarith)
  have h2 : ((round (x * 100) : ℤ) : ℚ) ≤ ((round (y * 100) : ℤ) : ℚ) := by
    exact_mod_cast hr
  linarith

lemma cent_scaled_round2 (x : ℚ) : cent_scaled (round2 x) := ⟨round (x * 100), rfl⟩

lemma round2_eq_self {x : ℚ} (h : cent_scaled x) : round2 x = x := by
  obtain ⟨k, rfl⟩ := h
  unfold round2
  rw [div_mul_cancel₀ _ (by norm_num : (100 : ℚ) ≠ 0), round_intCast]

lemma cent_scaled_sub {x y : ℚ} (hx : cent_scaled x) (hy : cent_scaled y) :
    cent_scaled (x - y) := by
  obtain ⟨k, rfl⟩ := hx
  obtain ⟨j, rfl⟩ := hy
  exact ⟨k - j, by push_cast; ring⟩

lemma round2_add_cent {r : ℚ} (h : cent_scaled r) (c : ℚ) :
    round2 (r + c) = r + round2 c := by
  obtain ⟨k, rfl⟩ := h
  unfold round2
  have h1 : ((k : ℚ) / 100 + c) * 100 = c * 100 + (k : ℚ) := by ring
  rw [h1, round_add_int]
  push_cast
  ring

/-! ## Claim C1: the stake formula on valid input -/

/-- C1: for every positive base, non-negative integer streak and zero count in
[0, 50] whose buffer factor is positive, `calculate_bet` returns the formula
value rounded to two decimals; in particular the stakes for (10, 12, 3) and
(10, 0, 3) are 752.00 and 9.40, and a zero count of exactly 50 always yields a
stake of 0.00. -/
theorem claim_C1 :
    (∀ (base : ℚ) (streak z : ℤ), 0 < base → 0 ≤ streak → 0 ≤ z → z ≤ 50 →
      0 < 1 - (z : ℚ) / 50 →
      calculate_bet base streak z =
        some (round2 (base * (fib_seq streak.toNat : ℚ) * (1 - (z : ℚ) / 50) /
          (1 + (streak : ℚ) / 15)))) ∧
    calculate_bet 10 12 3 = some 752 ∧
    calculate_bet 10 0 3 = some (47 / 5) ∧
    (∀ (base : ℚ) (streak : ℤ), 0 < base → 0 ≤ streak →
      calculate_bet base streak 50 = some 0) := by
  have hgen : ∀ (base : ℚ) (streak z : ℤ), 0 < base → 0 ≤ streak → 0 ≤ z → z ≤ 50 →
      0 < 1 - (z : ℚ) / 50 →
      calculate_bet base streak z =
        some (round2 (base * (fib_seq streak.toNat : ℚ) * (1 - (z : ℚ) / 50) /
          (1 + (streak : ℚ) / 15))) := by
    intro base streak z hb hs hz hz50 hbf
    have hs15 : (0 : ℚ) < 1 + (streak : ℚ) / 15 := by
      have : (0 : ℚ) ≤ (streak : ℚ) := by exact_mod_cast hs
      linarith
    unfold calculate_bet get_fib_for_streak
    rw [if_neg (not_le.2 hb), if_neg (not_lt.2 hs),
      if_neg (fun hc => hc ⟨hz, hz50⟩), if_neg (not_lt.2 hs)]
    dsimp only
    rw [if_neg (not_le.2 hbf), if_neg (not_le.2 hs15)]
  refine ⟨hgen, ?_, ?_, ?_⟩
  · rw [hgen 10 12 3 (by norm_num) (by norm_num) (by norm_num) (by norm_num) (by norm_num)]
    norm_num [fib_seq, round2, round_eq]
  · rw [hgen 10 0 3 (by norm_num) (by norm_num) (by norm_num) (by norm_num) (by norm_num)]
    norm_num [fib_seq, round2, round_eq]
  · intro base streak hb hs
    unfold calculate_bet get_fib_for_streak
    rw [if_neg (not_le.2 hb), if_neg (not_lt.2 hs),
      if_neg (fun hc => hc ⟨by norm_num, by norm_num⟩), if_neg (not_lt.2 hs)]
    dsimp only
    rw [if_pos (by norm_num)]

/-- C1 witness: the general formula statement instantiated at the reference
scenario base 10, streak 12, zero count 3. -/
theorem claim_C1_witness :
    calculate_bet 10 12 3 =
      some (round2 (10 * (fib_seq (12 : ℤ).toNat : ℚ) * (1 - (3 : ℚ) / 50) /
        (1 + (12 : ℚ) / 15))) :=
  claim_C1.1 10 12 3 (by norm_num) (by norm_num) (by norm_num) (by norm_num) (by norm_num)

/-! ## Claim C9: the stake formula on invalid input -/

/-- C9 counterexample: a non-int streak of value 0.5 at base 10 and zero
count 3 passes the three early guards by value and reaches the isinstance
check of the fibonacci helper, whose `ValueError` propagates out of
`calculate_bet` (`none`) instead of a stake of 0.0. -/
theorem claim_C9_counterexample :
    calculate_bet_py 10 (PyNumber.float (1 / 2)) 3 = none := by
  unfold calculate_bet_py get_fib_for_streak_py
  rw [if_neg (by norm_num), if_neg (by norm_num [PyNumber.val]),
    if_neg (by norm_num)]

/-- C9 (amended): a non-positive base, a negatively valued streak or a zero
count outside [0, 50] yields a stake of 0.0 without raising — which covers
non-integer streaks caught by those guards, and in particular a zero count of
60 yields 0.00 for every streak of non-negative value; but a non-int streak
that passes all three guards (positive base, value at least 0, zero count in
range) raises the `ValueError` of the fibonacci helper rather than returning
0.0. -/
theorem claim_C9 :
    (∀ (base : ℚ) (streak : PyNumber) (z : ℤ),
      base ≤ 0 ∨ streak.val < 0 ∨ z < 0 ∨ 50 < z →
        calculate_bet_py base streak z = some 0) ∧
    (∀ (base q : ℚ) (z : ℤ), 0 < base → 0 ≤ q → 0 ≤ z → z ≤ 50 →
      calculate_bet_py base (PyNumber.float q) z = none) ∧
    (∀ streak : PyNumber, 0 ≤ streak.val → calculate_bet_py 10 streak 60 = some 0) := by
  have hgen : ∀ (base : ℚ) (streak : PyNumber) (z : ℤ),
      base ≤ 0 ∨ streak.val < 0 ∨ z < 0 ∨ 50 < z →
        calculate_bet_py base streak z = some 0 := by
    intro base streak z h
    unfold calculate_bet_py
    by_cases h1 : base ≤ 0
    · rw [if_pos h1]
    rw [if_neg h1]
    by_cases h2 : streak.val < 0
    · rw [if_pos h2]
    rw [if_neg h2]
    by_cases h3 : ¬(0 ≤ z ∧ z ≤ 50)
    · rw [if_pos h3]
    · exfalso
      push_neg at h3
      rcases h with h | h | h | h
      · exact h1 h
      · exact h2 h
      · omega
      · omega
  refine ⟨hgen, ?_, fun streak _ => hgen 10 streak 60 (by norm_num)⟩
  intro base q z hb hq hz hz50
  unfold calculate_bet_py get_fib_for_streak_py
  rw [if_neg (not_le.2 hb),
    if_neg (show ¬(PyNumber.float q).val < 0 from not_lt.2 hq),
    if_neg (fun hc => hc ⟨hz, hz50⟩)]

/-- C9 witness: an int streak of -1 yields a stake of 0.0, a non-int streak
of value 0.5 with the out-of-range zero count 60 also yields 0.0 (the range
guard fires before the fibonacci helper), and a non-int streak of value 0.5
with zero count 3 raises. -/
theorem claim_C9_witness :
    calculate_bet_py 10 (PyNumber.int (-1)) 3 = some 0 ∧
    calculate_bet_py 10 (PyNumber.float (1 / 2)) 60 = some 0 ∧
    calculate_bet_py 10 (PyNumber.float (1 / 2)) 3 = none :=
  ⟨claim_C9.1 10 (PyNumber.int (-1)) 3 (Or.inr (Or.inl (by norm_num [PyNumber.val]))),
   claim_C9.2.2 (PyNumber.float (1 / 2)) (by norm_num [PyNumber.val]),
   claim_C9.2.1 10 (1 / 2) 3 (by norm_num) (by norm_num) (by norm_num) (by norm_num)⟩

/-! ## Claim C5: the fibonacci-like sequence -/

lemma fib_seq_le_succ (n : ℕ) : fib_seq n ≤ fib_seq (n + 1) := by
  match n with
  | 0 => simp [fib_seq]
  | 1 => simp [fib_seq]
  | 2 => simp [fib_seq]
  | (k + 3) =>
    have h : fib_seq (k + 4) = fib_seq (k + 3) + fib_seq (k + 2) := rfl
    rw [show k + 3 + 1 = k + 4 from rfl, h]
    exact Nat.le_add_right _ _

/-- C5: `get_fib_for_streak` on a non-negative integer returns the term of the
sequence with terms 0, 1, 2 equal to 1 and each later term the sum of the
previous two, and the sequence is non-decreasing. -/
theorem claim_C5 :
    (∀ k : ℕ, get_fib_for_streak (k : ℤ) = some (fib_seq k)) ∧
    fib_seq 0 = 1 ∧ fib_seq 1 = 1 ∧ fib_seq 2 = 1 ∧
    (∀ k : ℕ, fib_seq (k + 3) = fib_seq (k + 2) + fib_seq (k + 1)) ∧
    (∀ j k : ℕ, j ≤ k → fib_seq j ≤ fib_seq k) := by
  refine ⟨?_, rfl, rfl, rfl, fun k => rfl, ?_⟩
  · intro k
    unfold get_fib_for_streak
    rw [if_neg (by omega), Int.toNat_natCast]
  · exact fun j k h => monotone_nat_of_le_succ fib_seq_le_succ h

/-- C5 witness: the sequence statement at streak 12 and the monotonicity
between terms 3 and 12. -/
theorem claim_C5_witness :
    get_fib_for_streak ((12 : ℕ) : ℤ) = some (fib_seq 12) ∧ fib_seq 3 ≤ fib_seq 12 :=
  ⟨claim_C5.1 12, claim_C5.2.2.2.2.2 3 12 (by norm_num)⟩

/-! ## Claim C10: totality of the number classification -/

lemma mem_ALL_NUMBERS (n : ℤ) : n ∈ ALL_NUMBERS ↔ 0 ≤ n ∧ n ≤ 36 := by
  simp only [ALL_NUMBERS, List.mem_cons, List.not_mem_nil, or_false]
  omega

/-- C10: `get_number_properties` raises exactly outside 0..36; every number in
1..36 is classified as non-zero with color red or black, and 0 is classified
as zero with no color — the red-bet outcome rule is total over all 37
outcomes. -/
theorem claim_C10 :
    (∀ n : ℤ, (get_number_properties n).isSome ↔ (0 ≤ n ∧ n ≤ 36)) ∧
    (∀ n : ℤ, 1 ≤ n → n ≤ 36 →
      ∃ p : NumberProps, get_number_properties n = some p ∧ p.is_zero = false ∧
        (p.color = some "red" ∨ p.color = some "black")) ∧
    (∃ p : NumberProps, get_number_properties 0 = some p ∧ p.is_zero = true ∧
      p.color = none) := by
  refine ⟨?_, ?_, ?_⟩
  · intro n
    unfold get_number_properties
    by_cases h : n ∈ ALL_NUMBERS
    · simpa [h] using (mem_ALL_NUMBERS n).1 h
    · simp only [h, if_false, Option.isSome_none, Bool.false_eq_true, false_iff]
      exact fun hc => h ((mem_ALL_NUMBERS n).2 hc)
  · intro n h1 h36
    have hne : n ≠ 0 := by omega
    rw [get_number_properties, if_pos ((mem_ALL_NUMBERS n).2 ⟨by omega, h36⟩)]
    refine ⟨_, rfl, by simp [hne], ?_⟩
    by_cases hr : n ∈ RED_NUMBERS <;> simp [hne, hr]
  · have h : get_number_properties 0 =
        some { number := 0, is_zero := true, color := none, parity := none,
               range := none, dozen := none, column := none } := by decide
    exact ⟨_, h, rfl, rfl⟩

/-- C10 witness: number 17 is classified with a definite color. -/
theorem claim_C10_witness :
    ∃ p : NumberProps, get_number_properties 17 = some p ∧ p.is_zero = false ∧
      (p.color = some "red" ∨ p.color = some "black") :=
  claim_C10.2.1 17 (by norm_num) (by norm_num)

/-! ## Field-preservation facts for the stop-flag recomputation -/

@[simp] lemma check_stop_current_bank (m : RiskMonitor) :
    (check_stop_conditions m).current_bank = m.current_bank := rfl

@[simp] lemma check_stop_current_streak (m : RiskMonitor) :
    (check_stop_conditions m).current_streak = m.current_streak := rfl

@[simp] lemma check_stop_zero_buffer (m : RiskMonitor) :
    (check_stop_conditions m).zero_buffer = m.zero_buffer := rfl

@[simp] lemma check_stop_z_count (m : RiskMonitor) :
    (check_stop_conditions m).z_count_last_50 = m.z_count_last_50 := rfl

@[simp] lemma check_stop_window (m : RiskMonitor) :
    (check_stop_conditions m).spin_history_for_zero_count =
      m.spin_history_for_zero_count := rfl

@[simp] lemma check_stop_initial_bank (m : RiskMonitor) :
    (check_stop_conditions m).initial_bank = m.initial_bank := rfl

/-! ## Claim C3: the winning transition -/

/-- C3: a winning `update_state` transition (positive net win, pre-stake bank
supplied) sets the bank to the pre-stake bank plus the win rounded to two
decimals, resets the loss streak and grows the reserve by the rounded five
percent contribution (the reserve being a whole number of cents, as it always
is for reachable states). -/
theorem claim_C3 (m : RiskMonitor) (bet win bank_before : ℚ) (z : Bool)
    (hw : 0 < win) (hr : cent_scaled m.zero_buffer) :
    (update_state m bet win z (some bank_before)).current_bank =
        round2 (bank_before + win) ∧
    (update_state m bet win z (some bank_before)).current_streak = 0 ∧
    (update_state m bet win z (some bank_before)).zero_buffer =
        m.zero_buffer + round2 (win * (5 / 100)) := by
  unfold update_state update_state_pre update_z_count
  simp only [check_stop_current_bank, check_stop_current_streak, check_stop_zero_buffer]
  rw [if_pos hw]
  exact ⟨rfl, rfl, round2_add_cent hr _⟩

/-- C3 witness: from a fresh monitor with bank 1000, a stake of 10 and a net
win of 10 on a non-zero outcome give bank 1010.00, streak 0 and reserve
0.50. -/
theorem claim_C3_witness :
    (update_state (reset_state 1000 10) 10 10 false (some 1000)).current_bank = 1010 ∧
    (update_state (reset_state 1000 10) 10 10 false (some 1000)).current_streak = 0 ∧
    (update_state (reset_state 1000 10) 10 10 false (some 1000)).zero_buffer = 1 / 2 := by
  obtain ⟨h1, h2, h3⟩ :=
    claim_C3 (reset_state 1000 10) 10 10 1000 false (by norm_num)
      ⟨0, by norm_num [reset_state]⟩
  refine ⟨h1.trans ?_, h2, h3.trans ?_⟩
  · norm_num [round2, round_eq]
  · norm_num [reset_state, round2, round_eq]

/-! ## Claim C4: the zero-loss transition with compensation -/

/-- C4: a losing `update_state` transition on a zero outcome (net win 0,
pre-stake bank supplied) computes the compensation as min(half the stake,
reserve) rounded to two decimals, credits it against the lost stake, removes
exactly the compensation from the reserve (the reserve being a whole number of
cents) and increments the loss streak. -/
theorem claim_C4 (m : RiskMonitor) (bet bank_before : ℚ)
    (hr : cent_scaled m.zero_buffer) :
    (update_state m bet 0 true (some bank_before)).current_bank =
        round2 (bank_before - bet + round2 (min (bet * (50 / 100)) m.zero_buffer)) ∧
    (update_state m bet 0 true (some bank_before)).zero_buffer =
        m.zero_buffer - round2 (min (bet * (50 / 100)) m.zero_buffer) ∧
    (update_state m bet 0 true (some bank_before)).current_streak =
        m.current_streak + 1 := by
  unfold update_state update_state_pre update_z_count
  simp only [check_stop_current_bank, check_stop_current_streak, check_stop_zero_buffer]
  rw [if_neg (by norm_num : ¬((0 : ℚ) > 0)), if_pos trivial]
  refine ⟨rfl, ?_, rfl⟩
  exact round2_eq_self (cent_scaled_sub hr (cent_scaled_round2 _))

/-- C4 witness: from a monitor with bank 1000 and reserve preset to 20, a
losing stake of 10 on zero gives compensation 5.00, bank 995.00, reserve
15.00, streak 1 and zero count 1. -/
theorem claim_C4_witness :
    (update_state { reset_state 1000 10 with zero_buffer := 20 } 10 0 true
        (some 1000)).current_bank = 995 ∧
    (update_state { reset_state 1000 10 with zero_buffer := 20 } 10 0 true
        (some 1000)).zero_buffer = 15 ∧
    (update_state { reset_state 1000 10 with zero_buffer := 20 } 10 0 true
        (some 1000)).current_streak = 1 ∧
    (update_state { reset_state 1000 10 with zero_buffer := 20 } 10 0 true
        (some 1000)).z_count_last_50 = 1 := by
  obtain ⟨h1, h2, h3⟩ :=
    claim_C4 { reset_state 1000 10 with zero_buffer := 20 } 10 1000
      ⟨2000, by norm_num⟩
  refine ⟨h1.trans ?_, h2.trans ?_, h3.trans ?_, ?_⟩
  · norm_num [round2, round_eq]
  · norm_num [round2, round_eq]
  · norm_num [reset_state]
  · norm_num [update_state, update_state_pre, update_z_count, reset_state]

/-! ## Field characterizations of the update transition -/

lemma update_state_window (m : RiskMonitor) (bet win : ℚ) (z : Bool) (o : Option ℚ) :
    (update_state m bet win z o).spin_history_for_zero_count =
      (if (m.spin_history_for_zero_count ++ [if z then (1 : ℤ) else 0]).length > 50 then
        List.drop 1 (m.spin_history_for_zero_count ++ [if z then (1 : ℤ) else 0])
      else m.spin_history_for_zero_count ++ [if z then (1 : ℤ) else 0]) := by
  unfold update_state update_state_pre update_z_count check_stop_conditions
  cases o <;> dsimp only <;> split_ifs <;> rfl

lemma update_state_z (m : RiskMonitor) (bet win : ℚ) (z : Bool) (o : Option ℚ) :
    (update_state m bet win z o).z_count_last_50 =
      (update_state m bet win z o).spin_history_for_zero_count.sum := by
  unfold update_state update_state_pre update_z_count check_stop_conditions
  cases o <;> dsimp only <;> split_ifs <;> rfl

lemma update_state_streak (m : RiskMonitor) (bet win : ℚ) (z : Bool) (o : Option ℚ) :
    (update_state m bet win z o).current_streak =
      (if 0 < win then 0 else m.current_streak + 1) := by
  unfold update_state update_state_pre update_z_count check_stop_conditions
  cases o <;> dsimp only <;> split_ifs <;> rfl

lemma update_state_buffer (m : RiskMonitor) (bet win : ℚ) (z : Bool) (o : Option ℚ) :
    (update_state m bet win z o).zero_buffer =
      (if 0 < win then round2 (m.zero_buffer + win * (5 / 100))
       else if z then
         round2 (m.zero_buffer - round2 (min (bet * (50 / 100)) m.zero_buffer))
       else m.zero_buffer) := by
  unfold update_state update_state_pre update_z_count check_stop_conditions
  cases o <;> dsimp only <;> split_ifs <;> rfl

lemma update_state_initial_bank (m : RiskMonitor) (bet win : ℚ) (z : Bool) (o : Option ℚ) :
    (update_state m bet win z o).initial_bank = m.initial_bank := by
  unfold update_state update_state_pre update_z_count check_stop_conditions
  cases o <;> dsimp only <;> split_ifs <;> rfl

/-! ## Claim C6: the RiskState invariant -/

lemma good_window_sum_nonneg {l : List ℤ} (h : good_window l) : 0 ≤ l.sum := by
  induction l with
  | nil => simp
  | cons a t ih =>
    have ha := h a (List.mem_cons_self a t)
    have ht : good_window t := fun f hf => h f (List.mem_cons_of_mem a hf)
    simp only [List.sum_cons]
    have := ih ht
    rcases ha with ha | ha <;> omega

lemma good_window_sum_le_length {l : List ℤ} (h : good_window l) :
    l.sum ≤ (l.length : ℤ) := by
  induction l with
  | nil => simp
  | cons a t ih =>
    have ha := h a (List.mem_cons_self a t)
    have ht : good_window t := fun f hf => h f (List.mem_cons_of_mem a hf)
    simp only [List.sum_cons, List.length_cons]
    have := ih ht
    rcases ha with ha | ha <;> push_cast <;> omega

lemma window_push_length (w : List ℤ) (f : ℤ) (n : ℕ) (hlen : w.length = min 50 n) :
    (if (w ++ [f]).length > 50 then List.drop 1 (w ++ [f]) else w ++ [f]).length =
      min 50 (n + 1) := by
  by_cases hc : (w ++ [f]).length > 50
  · rw [if_pos hc]
    simp only [List.length_drop, List.length_append, List.length_singleton] at *
    omega
  · rw [if_neg hc]
    simp only [List.length_append, List.length_singleton] at *
    omega

lemma window_push_good (w : List ℤ) (f : ℤ) (hg : good_window w) (hf : f = 0 ∨ f = 1) :
    good_window (if (w ++ [f]).length > 50 then List.drop 1 (w ++ [f]) else w ++ [f]) := by
  have happ : good_window (w ++ [f]) := by
    intro a ha
    rcases List.mem_append.1 ha with ha | ha
    · exact hg a ha
    · rcases List.mem_singleton.1 ha with rfl
      exact hf
  by_cases hc : (w ++ [f]).length > 50
  · rw [if_pos hc]
    exact fun a ha => happ a (List.drop_subset 1 (w ++ [f]) ha)
  · rw [if_neg hc]
    exact happ

lemma monitor_inv_step (m : RiskMonitor) (n : ℕ) (t : SpinUpdate)
    (h : monitor_inv m n) :
    monitor_inv (update_state m t.bet t.win t.zero t.override) (n + 1) := by
  obtain ⟨hlen, hz, hgood, hstreak, hbuf, hcent⟩ := h
  have hflag : (if t.zero then (1 : ℤ) else 0) = 0 ∨ (if t.zero then (1 : ℤ) else 0) = 1 := by
    cases t.zero <;> simp
  refine ⟨?_, update_state_z m t.bet t.win t.zero t.override, ?_, ?_, ?_, ?_⟩
  · rw [update_state_window]
    exact window_push_length _ _ n hlen
  · rw [update_state_window]
    exact window_push_good _ _ hgood hflag
  · rw [update_state_streak]
    split_ifs <;> omega
  · rw [update_state_buffer]
    split_ifs with h1 h2
    · exact round2_nonneg _ (by nlinarith)
    · have hcomp : round2 (min (t.bet * (50 / 100)) m.zero_buffer) ≤ m.zero_buffer :=
        calc round2 (min (t.bet * (50 / 100)) m.zero_buffer)
            ≤ round2 m.zero_buffer := round2_le_round2 (min_le_right _ _)
          _ = m.zero_buffer := round2_eq_self hcent
      exact round2_nonneg _ (by linarith)
    · exact hbuf
  · rw [update_state_buffer]
    split_ifs
    · exact cent_scaled_round2 _
    · exact cent_scaled_round2 _
    · exact hcent

lemma monitor_inv_applyUpdates (m : RiskMonitor) (n : ℕ) (ts : List SpinUpdate)
    (h : monitor_inv m n) : monitor_inv (applyUpdates m ts) (n + ts.length) := by
  induction ts generalizing m n with
  | nil => simpa [applyUpdates] using h
  | cons t ts ih =>
    have hstep := monitor_inv_step m n t h
    have hrec := ih _ _ hstep
    have harr : n + 1 + ts.length = n + (t :: ts).length := by
      simp [List.length_cons]
      omega
    rw [harr] at hrec
    simpa [applyUpdates, List.foldl_cons] using hrec

/-- C6: from any reset state, after every sequence of `update_state`
transitions the zero window has length min(50, number of transitions), the
cached zero count equals the window sum and lies in [0, 50], the loss streak
is non-negative and the reserve is non-negative. -/
theorem claim_C6 (b bb : ℚ) (ts : List SpinUpdate) :
    (applyUpdates (reset_state b bb) ts).spin_history_for_zero_count.length =
        min 50 ts.length ∧
    (applyUpdates (reset_state b bb) ts).z_count_last_50 =
        (applyUpdates (reset_state b bb) ts).spin_history_for_zero_count.sum ∧
    0 ≤ (applyUpdates (reset_state b bb) ts).z_count_last_50 ∧
    (applyUpdates (reset_state b bb) ts).z_count_last_50 ≤ 50 ∧
    0 ≤ (applyUpdates (reset_state b bb) ts).current_streak ∧
    0 ≤ (applyUpdates (reset_state b bb) ts).zero_buffer := by
  have h0 : monitor_inv (reset_state b bb) 0 := by
    refine ⟨by simp [reset_state], rfl, ?_, le_refl 0, le_refl 0,
      ⟨0, by norm_num [reset_state]⟩⟩
    intro f hf
    simp [reset_state] at hf
  have h := monitor_inv_applyUpdates (reset_state b bb) 0 ts h0
  obtain ⟨hlen, hz, hgood, hstreak, hbuf, hcent⟩ := h
  rw [Nat.zero_add] at hlen
  refine ⟨hlen, hz, ?_, ?_, hstreak, hbuf⟩
  · rw [hz]
    exact good_window_sum_nonneg hgood
  · rw [hz]
    calc (applyUpdates (reset_state b bb) ts).spin_history_for_zero_count.sum
        ≤ ((applyUpdates (reset_state b bb) ts).spin_history_for_zero_count.length : ℤ) :=
          good_window_sum_le_length hgood
      _ ≤ 50 := by rw [hlen]; push_cast; omega

/-! ## Claim C7: autostop terminates the run at the next check -/

lemma update_state_loss_flag (m : RiskMonitor) (bet win : ℚ) (z : Bool) (o : Option ℚ) :
    (update_state m bet win z o).loss_streak_limit =
      decide ((update_state m bet win z o).current_streak ≥ 15) := rfl

lemma update_state_zero_flag (m : RiskMonitor) (bet win : ℚ) (z : Bool) (o : Option ℚ) :
    (update_state m bet win z o).zero_count_limit =
      decide ((update_state m bet win z o).z_count_last_50 ≥ 4) := rfl

lemma update_state_drawdown_flag (m : RiskMonitor) (bet win : ℚ) (z : Bool) (o : Option ℚ) :
    (update_state m bet win z o).drawdown_limit =
      (if (update_state m bet win z o).initial_bank > 0 then
        decide (((update_state m bet win z o).initial_bank -
            (update_state m bet win z o).current_bank) /
          (update_state m bet win z o).initial_bank ≥ 20 / 100)
      else if (update_state m bet win z o).current_bank < 0 then true
      else false) := rfl

lemma update_state_stop_of_conds (m : RiskMonitor) (bet win : ℚ) (z : Bool) (o : Option ℚ)
    (h : stop_conditions_hold (update_state m bet win z o)) :
    is_stop_suggested (update_state m bet win z o) = true := by
  unfold stop_conditions_hold at h
  unfold is_stop_suggested
  rcases h with h | h | ⟨hib, hdd⟩
  · rw [update_state_loss_flag]
    simp [h]
  · rw [update_state_zero_flag]
    simp [h]
  · rw [update_state_drawdown_flag, if_pos hib]
    simp [hdd]

lemma stepRound_monitor (sim : RouletteSimulator) (c : ℕ) (x : Fin 37) :
    ∃ bet win z o,
      (stepRound sim c x).1.risk_monitor = update_state sim.risk_monitor bet win z o := by
  unfold stepRound
  dsimp only
  split_ifs <;> exact ⟨_, _, _, _, rfl⟩

lemma stepRound_stop_of_conds (sim : RouletteSimulator) (c : ℕ) (x : Fin 37)
    (h : stop_conditions_hold (stepRound sim c x).1.risk_monitor) :
    is_stop_suggested (stepRound sim c x).1.risk_monitor = true := by
  obtain ⟨bet, win, z, o, hm⟩ := stepRound_monitor sim c x
  rw [hm] at h ⊢
  exact update_state_stop_of_conds _ _ _ _ _ h

/-- C7: whenever one executed round of the driver loop leaves the monitor with
a loss streak of at least 15, a zero count of at least 4 or a drawdown of at
least 20 percent of a positive initial bank, the corresponding stop flag is
set by that round and the run terminates with the state of that round: the
remaining outcome budget is never touched and no further stake is placed. -/
theorem claim_C7 (sim : RouletteSimulator) (c : ℕ) (x : Fin 37) (xs : List (Fin 37))
    (hpre : is_stop_suggested sim.risk_monitor = false)
    (hconds : stop_conditions_hold (stepRound sim c x).1.risk_monitor) :
    ((stepRound sim c x).1.risk_monitor.current_streak ≥ 15 →
        (stepRound sim c x).1.risk_monitor.loss_streak_limit = true) ∧
    ((stepRound sim c x).1.risk_monitor.z_count_last_50 ≥ 4 →
        (stepRound sim c x).1.risk_monitor.zero_count_limit = true) ∧
    (0 < (stepRound sim c x).1.risk_monitor.initial_bank →
      ((stepRound sim c x).1.risk_monitor.initial_bank -
          (stepRound sim c x).1.risk_monitor.current_bank) /
        (stepRound sim c x).1.risk_monitor.initial_bank ≥ 20 / 100 →
        (stepRound sim c x).1.risk_monitor.drawdown_limit = true) ∧
    run_simulation sim c (x :: xs) = (stepRound sim c x).1 := by
  obtain ⟨bet, win, z, o, hm⟩ := stepRound_monitor sim c x
  have hstop : is_stop_suggested (stepRound sim c x).1.risk_monitor = true :=
    stepRound_stop_of_conds sim c x hconds
  refine ⟨?_, ?_, ?_, ?_⟩
  · intro h
    rw [hm] at h ⊢
    rw [update_state_loss_flag]
    simp [h]
  · intro h
    rw [hm] at h ⊢
    rw [update_state_zero_flag]
    simp [h]
  · intro hib hdd
    rw [hm] at hib hdd ⊢
    rw [update_state_drawdown_flag, if_pos hib]
    simp [hdd]
  · rw [run_simulation]
    rw [if_neg (by simp [hpre])]
    by_cases hc : (stepRound sim c x).2
    · rw [if_pos hc]
      cases xs with
      | nil => rfl
      | cons y ys =>
        rw [run_simulation, if_pos (by simp [hstop])]
    · rw [if_neg hc]

/-! ## Concrete number-classification and outcome facts -/

lemma getPropsFin_eq (n : Fin 37) :
    get_number_properties (n : ℤ) = some (getPropsFin n) := by
  have hmem : (n : ℤ) ∈ ALL_NUMBERS := by
    refine (mem_ALL_NUMBERS _).2 ⟨by omega, ?_⟩
    have h37 := n.2
    omega
  unfold getPropsFin
  rw [get_number_properties, if_pos hmem]
  rfl

lemma getPropsFin_5 : getPropsFin 5 =
    { number := 5, is_zero := false, color := some "red",
      parity := some "odd", range := some "low", dozen := some 1, column := some 2 } := by
  decide

lemma getPropsFin_2 : getPropsFin 2 =
    { number := 2, is_zero := false, color := some "black",
      parity := some "even", range := some "low", dozen := some 1, column := some 2 } := by
  decide

lemma getPropsFin_1 : getPropsFin 1 =
    { number := 1, is_zero := false, color := some "red",
      parity := some "odd", range := some "low", dozen := some 1, column := some 1 } := by
  decide

lemma place_bet_spin2 (bet : ℚ) :
    place_bet_and_determine_outcome bet (2 : Fin 37) = (0, false) := by
  unfold place_bet_and_determine_outcome
  rw [getPropsFin_2]
  by_cases h : bet ≤ 0
  · rw [if_pos h]
  · rw [if_neg h]
    dsimp only
    rw [if_neg (by decide)]

lemma place_bet_spin1 (bet : ℚ) :
    place_bet_and_determine_outcome bet (1 : Fin 37) =
      (if bet ≤ 0 then (0, false) else (bet, false)) := by
  unfold place_bet_and_determine_outcome
  rw [getPropsFin_1]
  by_cases h : bet ≤ 0
  · rw [if_pos h, if_pos h]
  · rw [if_neg h, if_neg h]
    dsimp only
    rw [if_pos (by decide)]

set_option maxHeartbeats 1000000 in
lemma stepRound_drawdown_eval :
    (stepRound (mkSimulator 100 30) 1 (2 : Fin 37)).1.risk_monitor =
    { initial_bank := 100, current_bank := 70, base_bet := 30, current_streak := 1,
      z_count_last_50 := 0, zero_buffer := 0, spin_history_for_zero_count := [0],
      loss_streak_limit := false, zero_count_limit := false, drawdown_limit := true } := by
  norm_num [stepRound, mkSimulator, reset_state, update_state, update_state_pre,
    update_z_count, check_stop_conditions, calculate_bet, get_fib_for_streak, fib_seq,
    place_bet_spin2, round2, round_eq]

/-- C7 witness: with bank 100 and base stake 30, a first-round loss on black
trips the 20 percent drawdown condition and the run with a two-outcome budget
ends with the state of the first round. -/
theorem claim_C7_witness :
    run_simulation (mkSimulator 100 30) 1 [(2 : Fin 37), (5 : Fin 37)] =
      (stepRound (mkSimulator 100 30) 1 (2 : Fin 37)).1 :=
  (claim_C7 (mkSimulator 100 30) 1 2 [5] rfl
    (by
      rw [stepRound_drawdown_eval]
      exact Or.inr (Or.inr ⟨by norm_num, by norm_num⟩))).2.2.2

/-! ## Claim C2: no fatal configuration check exists -/

lemma stepRound_bet_history_length (sim : RouletteSimulator) (c : ℕ) (x : Fin 37) :
    (stepRound sim c x).1.bet_history.length = sim.bet_history.length + 1 := by
  unfold stepRound
  dsimp only
  split_ifs <;> simp

lemma stepRound_spin_history_length (sim : RouletteSimulator) (c : ℕ) (x : Fin 37) :
    (stepRound sim c x).1.spin_history.length = sim.spin_history.length + 1 := by
  unfold stepRound
  dsimp only
  split_ifs <;> simp

lemma stepRound_window_length (sim : RouletteSimulator) (c : ℕ) (x : Fin 37) :
    (stepRound sim c x).1.risk_monitor.spin_history_for_zero_count.length =
      (if sim.risk_monitor.spin_history_for_zero_count.length + 1 > 50 then
        sim.risk_monitor.spin_history_for_zero_count.length
      else sim.risk_monitor.spin_history_for_zero_count.length + 1) := by
  obtain ⟨bet, win, z, o, hm⟩ := stepRound_monitor sim c x
  rw [hm, update_state_window]
  by_cases hc :
      (sim.risk_monitor.spin_history_for_zero_count ++ [if z then (1 : ℤ) else 0]).length > 50
  · rw [if_pos hc]
    have hlen :
        (sim.risk_monitor.spin_history_for_zero_count ++
          [if z then (1 : ℤ) else 0]).length =
          sim.risk_monitor.spin_history_for_zero_count.length + 1 := by
      simp
    rw [hlen] at hc
    rw [if_pos hc]
    simp
  · rw [if_neg hc]
    have hlen :
        (sim.risk_monitor.spin_history_for_zero_count ++
          [if z then (1 : ℤ) else 0]).length =
          sim.risk_monitor.spin_history_for_zero_count.length + 1 := by
      simp
    rw [hlen] at hc
    rw [if_neg hc]
    exact hlen

lemma run_simulation_single (sim : RouletteSimulator) (c : ℕ) (x : Fin 37)
    (h : is_stop_suggested sim.risk_monitor = false) :
    run_simulation sim c [x] = (stepRound sim c x).1 := by
  rw [run_simulation, if_neg (by simp [h])]
  by_cases hc : (stepRound sim c x).2
  · rw [if_pos hc]
    rfl
  · rw [if_neg hc]

/-- C2 (amended): a configuration with non-positive initial bank or base stake
is not rejected by the driver — there is no fatal configuration check — and
the first round still executes: a spin is consumed, a state transition is
applied (pushing one flag into the zero window) and a round record is
appended, the computed stake being clamped to at most 0 so that the round is a
zero-stake round. -/
theorem claim_C2 (b bb : ℚ) (x : Fin 37) (_h : b ≤ 0 ∨ bb ≤ 0) :
    (run_simulation (mkSimulator b bb) 1 [x]).bet_history.length = 1 ∧
    (run_simulation (mkSimulator b bb) 1 [x]).spin_history.length = 1 ∧
    (run_simulation (mkSimulator b bb) 1 [x]).risk_monitor.spin_history_for_zero_count.length
      = 1 := by
  have hstop : is_stop_suggested (mkSimulator b bb).risk_monitor = false := rfl
  rw [run_simulation_single _ _ _ hstop]
  rw [stepRound_bet_history_length, stepRound_spin_history_length, stepRound_window_length]
  refine ⟨by simp [mkSimulator], by simp [mkSimulator], ?_⟩
  have hw : (mkSimulator b bb).risk_monitor.spin_history_for_zero_count.length = 0 := rfl
  rw [hw]
  norm_num

/-- C2 witness: the amended statement at bank 1000 and base stake -10 with
outcome 5. -/
theorem claim_C2_witness :
    (run_simulation (mkSimulator 1000 (-10)) 1 [(5 : Fin 37)]).bet_history.length = 1 ∧
    (run_simulation (mkSimulator 1000 (-10)) 1 [(5 : Fin 37)]).spin_history.length = 1 ∧
    (run_simulation (mkSimulator 1000 (-10)) 1
      [(5 : Fin 37)]).risk_monitor.spin_history_for_zero_count.length = 1 :=
  claim_C2 1000 (-10) 5 (Or.inr (by norm_num))

/-- C2 counterexample: with the invalid configuration bank 1000 and base stake
-10 the run is not rejected before any round: a spin is drawn (the history
records outcome 5), a state transition is applied (the zero window gains a
flag) and a round record is appended. -/
theorem claim_C2_counterexample :
    (run_simulation (mkSimulator 1000 (-10)) 1 [(5 : Fin 37)]).spin_history = [5] ∧
    (run_simulation (mkSimulator 1000 (-10)) 1
        [(5 : Fin 37)]).risk_monitor.spin_history_for_zero_count = [0] ∧
    (run_simulation (mkSimulator 1000 (-10)) 1 [(5 : Fin 37)]).bet_history.length = 1 := by
  refine ⟨?_, ?_, ?_⟩
  · norm_num [run_simulation, stepRound, mkSimulator, reset_state, is_stop_suggested,
      update_state, update_state_pre, update_z_count, check_stop_conditions,
      calculate_bet, get_fib_for_streak, fib_seq, getPropsFin_5,
      place_bet_and_determine_outcome, round2, round_eq]
    decide
  · norm_num [run_simulation, stepRound, mkSimulator, reset_state, is_stop_suggested,
      update_state, update_state_pre, update_z_count, check_stop_conditions,
      calculate_bet, get_fib_for_streak, fib_seq, getPropsFin_5,
      place_bet_and_determine_outcome, round2, round_eq]
  · norm_num [run_simulation, stepRound, mkSimulator, reset_state, is_stop_suggested,
      update_state, update_state_pre, update_z_count, check_stop_conditions,
      calculate_bet, get_fib_for_streak, fib_seq, getPropsFin_5,
      place_bet_and_determine_outcome, round2, round_eq]

/-! ## Claim C8: the recorded pre-round streak is wrong on wins -/

set_option maxHeartbeats 4000000 in
/-- C8 evaluation: with bank 1000 and base stake 10, after a first-round loss
on black the monitor holds loss streak 1, so the stake of round 2 (9.38) is
computed from streak 1; yet the round record appended for that winning second
round stores streak_before_bet = 0 — the post-win value — because the
reconstruction subtracts 1 only for non-zero losses. The stake formula input
and the recorded value disagree, contradicting both the specification and the
comment in `simulator.py` stating the record holds the pre-spin values. -/
theorem claim_C8 :
    (stepRound (mkSimulator 1000 10) 1 (2 : Fin 37)).1.risk_monitor.current_streak = 1 ∧
    ((run_simulation (mkSimulator 1000 10) 1 [(2 : Fin 37), (1 : Fin 37)]).bet_history.map
      (fun r => (r.bet_amount, r.streak_before_bet))) = [(10, 0), (469 / 50, 0)] := by
  constructor
  · norm_num [stepRound, mkSimulator, reset_state, update_state, update_state_pre,
      update_z_count, check_stop_conditions, calculate_bet, get_fib_for_streak, fib_seq,
      place_bet_spin2, round2, round_eq]
  · norm_num [run_simulation, stepRound, mkSimulator, reset_state, is_stop_suggested,
      update_state, update_state_pre, update_z_count, check_stop_conditions,
      calculate_bet, get_fib_for_streak, fib_seq, place_bet_spin2, place_bet_spin1,
      round2, round_eq]
